import Mathlib

/-!
Shallow embedding of the Eskola RolePlayBot backend (`src/server.js`, second
revision: persona realism + receptivity + anti-repeat).  JavaScript numbers in
the positions the handler coerces with `Number(...)`, `||`, `Math.min/max` are
modelled exactly: finite values as rationals, plus `NaN` and the two
infinities; non-numeric request values (objects, non-numeric strings) are a
separate constructor whose `Number(...)` coercion is `NaN`.  String lengths
and slicing are modelled in code points.
-/

set_option maxRecDepth 8000
set_option maxHeartbeats 2000000

namespace Eskola

/-- Result of JavaScript numeric coercion: a finite number, `NaN`, or `±Infinity`.
`undef` stands for the JavaScript value `undefined` in a numeric position
(the declared type of `style.drift`, a float that may be absent). -/
inductive JSNum where
  | undef
  | fin (q : ℚ)
  | nan
  | inf (pos : Bool)
deriving DecidableEq, Repr

/-- A caller-supplied JavaScript value in the `receptivity` position:
absent (`undefined`), a number (finite, `NaN` or `±Infinity`), or a
non-numeric value (`other`), carrying its string interpolation, whose
`Number(...)` coercion is `NaN`. -/
inductive JSVal where
  | undef
  | num (q : ℚ)
  | nan
  | inf (pos : Bool)
  | other (display : String)
deriving DecidableEq, Repr

/-- JavaScript truthiness of a numeric value: `0`, `NaN` and `undefined` are
falsy; every other number (including `±Infinity`) is truthy. -/
def jsNumTruthy : JSNum → Bool
  | .undef => false
  | .fin q => q != 0
  | .nan => false
  | .inf _ => true

/-- `Number(v)` for a `receptivity`-position value: `undefined` and
non-numeric values coerce to `NaN`; numbers coerce to themselves. -/
def toNumber : JSVal → JSNum
  | .undef => .nan
  | .num q => .fin q
  | .nan => .nan
  | .inf p => .inf p
  | .other _ => .nan

/-- `x || 0` on a numeric value: falsy (`0`, `NaN`, `undefined`) becomes `0`. -/
def jsOr0 (n : JSNum) : JSNum :=
  if jsNumTruthy n then n else .fin 0

/-- `Math.min` on two numeric values: `NaN` propagates, otherwise the usual
minimum with infinities. -/
def jsMin : JSNum → JSNum → JSNum
  | .nan, _ => .nan
  | _, .nan => .nan
  | .undef, _ => .nan
  | _, .undef => .nan
  | .inf true, b => b
  | b, .inf true => b
  | .inf false, _ => .inf false
  | _, .inf false => .inf false
  | .fin a, .fin b => .fin (min a b)

/-- `Math.max` on two numeric values: `NaN` propagates, otherwise the usual
maximum with infinities. -/
def jsMax : JSNum → JSNum → JSNum
  | .nan, _ => .nan
  | _, .nan => .nan
  | .undef, _ => .nan
  | _, .undef => .nan
  | .inf false, b => b
  | b, .inf false => b
  | .inf true, _ => .inf true
  | _, .inf true => .inf true
  | .fin a, .fin b => .fin (max a b)

/-- `const d = Math.max(0, Math.min(3, Number(dial) || 0))` from
`receptivityTuning` in `src/server.js`. -/
def clampDial (dial : JSVal) : JSNum :=
  jsMax (.fin 0) (jsMin (.fin 3) (jsOr0 (toNumber dial)))

/-- A caller-supplied chat message: `role`, `content`, plus any extra fields
the front-end attaches (modelled as a key-value list). -/
structure Msg where
  role : String
  content : String
  extras : List (String × String)
deriving DecidableEq, Repr

/-- A message as forwarded upstream: exactly the two fields `role` and
`content` (`m => ({ role: m.role, content: m.content })`). -/
structure SendMsg where
  role : String
  content : String
deriving DecidableEq, Repr

/-- `const OPENAI_ROLES = new Set(["system", "assistant", "user"])`. -/
def OPENAI_ROLES : List String := ["system", "assistant", "user"]

/-- Projection of a caller message to the two forwarded fields. -/
def projectMsg (m : Msg) : SendMsg := ⟨m.role, m.content⟩

/-- `messages.filter(m => OPENAI_ROLES.has(m.role)).map(m => ({ role: m.role, content: m.content }))`. -/
def sanitizedMessages (messages : List Msg) : List SendMsg :=
  (messages.filter fun m => OPENAI_ROLES.contains m.role).map projectMsg

/-- `antiRepeatList(messages, maxChars = 1200)` from `src/server.js`:
reverse, keep assistant messages, take the first 6 (most recent first), join
with `" • "`, keep the last `maxChars` characters when longer, and replace a
falsy (empty) result with `"(none)"`. -/
def antiRepeatList (messages : List SendMsg) (maxChars : Nat) : String :=
  let last := ((messages.reverse).filter fun m => m.role == "assistant").take 6
  let text := String.intercalate " • " (last.map fun m => m.content)
  let text2 := if text.length > maxChars then text.drop (text.length - maxChars) else text
  if text2 == "" then "(none)" else text2

/-- `const diversityBlock = antiRepeatList(sanitizedMessages)` — the hint is
computed from the sanitized list, after role filtering. -/
def diversityBlockOf (messages : List Msg) : String :=
  antiRepeatList (sanitizedMessages messages) 1200

/-- The `cold_prospect` entry of `receptivityTuning`'s `map`. -/
def coldTones : List String :=
  ["Ultra-guarded: 1 short sentence, no proactive questions; defaults to deflections; only softens after clear H (permission) + E (relevant qualifying question).",
   "Guarded: brief replies; rarely asks questions; may offer a tiny clarifier if rep shows strong H+E.",
   "Balanced: still brief but cooperative; can ask one short clarifier; open to a very small next step if value is explicit.",
   "Open: conversational; may ask a few questions; receptive to a low-friction next step."]

/-- The `qualified_lead` entry of `receptivityTuning`'s `map`. -/
def qualifiedTones : List String :=
  ["Guarded-analytical: terse; asks for proof only if rep earns it; pushes for clarity.",
   "Cool-analytical: selective questions; pressure on SLA/safety/warranty.",
   "Neutral-analytical: normal questions; compares options fairly.",
   "Warm-analytical: collaborative; ready to advance with a clear next step."]

/-- The `existing_customer` entry of `receptivityTuning`'s `map`. -/
def existingTones : List String :=
  ["Guarded-practical: polite but brief; raises a small concern; avoids extra steps until value is explicit.",
   "Cool-practical: cooperative; open to schedule talk and simple next steps.",
   "Neutral-practical: friendly; receptive to SHIELD framed as risk/warranty protection.",
   "Warm-practical: positive; likely to accept inspection/site walk."]

/-- The property names every object literal inherits from
`Object.prototype`: `obj[k]` for these `k` finds a truthy inherited member
(a function, or `Object.prototype` itself for `__proto__`) even though the
literal has no own property `k`. -/
def objectPrototypeKeys : List String :=
  ["constructor", "hasOwnProperty", "isPrototypeOf", "propertyIsEnumerable",
   "toLocaleString", "toString", "valueOf", "__proto__",
   "__defineGetter__", "__defineSetter__", "__lookupGetter__", "__lookupSetter__"]

/-- The result of a JavaScript property read `obj[k]` on an object literal:
an own property of payload type `α`, or a (truthy, non-`α`) member inherited
from `Object.prototype`. -/
inductive JsProp (α : Type) where
  | own (a : α)
  | inheritedMember (name : String)
deriving DecidableEq, Repr

/-- JavaScript property lookup on an object literal: own properties first,
then the `Object.prototype` chain, else `undefined`. -/
def objLookup {α : Type} (ownProps : String → Option α) (k : String) :
    Option (JsProp α) :=
  match ownProps k with
  | some a => some (.own a)
  | none =>
    if objectPrototypeKeys.contains k then some (.inheritedMember k) else none

/-- The own properties of `receptivityTuning`'s `map` object. -/
def toneTableOwn (persona : String) : Option (List String) :=
  if persona == "cold_prospect" then some coldTones
  else if persona == "qualified_lead" then some qualifiedTones
  else if persona == "existing_customer" then some existingTones
  else none

/-- `map[persona]` — property lookup on the tone-table object literal,
prototype chain included. -/
def toneTableOpt (persona : String) : Option (JsProp (List String)) :=
  objLookup toneTableOwn persona

/-- JavaScript array indexing `list[d]` with a numeric index: an integral
in-range index yields the element, anything else (fractional, negative,
out of range, `NaN`, `±Infinity`) yields `undefined` (`none`). -/
def jsIndex (l : List String) : JSNum → Option String
  | .fin q => if q.den == 1 && 0 ≤ q.num then l.get? q.num.toNat else none
  | _ => none

/-- `receptivityTuning(persona, dial)` from `src/server.js`:
`const list = map[persona] || map.cold_prospect; return list[d];`
with `d` the clamped dial. Returns `none` when `list[d]` is `undefined` —
also when `list` is a truthy member inherited from `Object.prototype`
(a function or `Object.prototype`), which has no numeric elements. -/
def receptivityTuning (persona : String) (dial : JSVal) : Option String :=
  match (toneTableOpt persona).getD (.own coldTones) with
  | .own l => jsIndex l (clampDial dial)
  | .inheritedMember _ => none

/-- The `cold_prospect` entry of `basePersona` (template literal, leading
newline included). -/
def basePersonaCold : String :=
  "\n- Keep it short (often 1 sentence). Guarded, busy, skeptical.\n- Do NOT ask questions proactively unless BOTH are true:\n  (1) the rep uses a clear permission-based opener (Hello), and\n  (2) the rep asks one crisp, relevant qualifying question (Educate).\n- Default to deflections: “We’re covered,” “No budget,” “Not a priority,” “Send something.”\n- Only soften after clear H+E; still avoid volunteering details."

/-- The `qualified_lead` entry of `basePersona`. -/
def basePersonaQualified : String :=
  "\n- Engaged but discerning. Probe for proof (response times, safety/warranty, scope clarity, cost vs value).\n- Compare vendors. Advance only if next steps are clear and business-relevant."

/-- The `existing_customer` entry of `basePersona`. -/
def basePersonaExisting : String :=
  "\n- Friendly and practical; reference prior work/inspections.\n- Raise one light concern (e.g., response time) but remain collaborative.\n- Open to SHIELD upsell when framed as risk reduction and warranty health."

/-- The own properties of the `basePersona` object literal. -/
def basePersonaOwn (persona : String) : Option String :=
  if persona == "cold_prospect" then some basePersonaCold
  else if persona == "qualified_lead" then some basePersonaQualified
  else if persona == "existing_customer" then some basePersonaExisting
  else none

/-- `basePersona[scenario.persona]` — property lookup on the persona object
literal, prototype chain included. -/
def basePersonaOpt (persona : String) : Option (JsProp String) :=
  objLookup basePersonaOwn persona

/-- The string a template literal interpolates for a member inherited from
`Object.prototype`: `Object.prototype` itself (the `__proto__` read) prints
as `[object Object]`; the others are built-in functions, which Node (V8)
prints in the `function name() { [native code] }` form. -/
def protoMemberDisplay (name : String) : String :=
  if name == "__proto__" then "[object Object]"
  else "function " ++ name ++ "() \x7b [native code] \x7d"

/-- Interpolation of the looked-up persona directive: an own property is the
directive text, an inherited member prints per `protoMemberDisplay`. -/
def jsPropShow : JsProp String → String
  | .own s => s
  | .inheritedMember name => protoMemberDisplay name

/-- The caller-supplied `style` object: `quirk` and `seed` are strings that
may be absent, `drift` is a float that may be absent (the spec's `StyleHint`
declares `drift: float`). -/
structure Style where
  quirk : Option String
  seed : Option String
  drift : JSNum
deriving DecidableEq, Repr

/-- `(style?.quirk || "curt and to the point").toString()`: absent `style`,
absent `quirk`, or an empty (falsy) `quirk` give the default. -/
def quirkOf (style : Option Style) : String :=
  match style with
  | none => "curt and to the point"
  | some s =>
    match s.quirk with
    | none => "curt and to the point"
    | some q => if q == "" then "curt and to the point" else q

/-- `(style?.seed || "session").toString()`. -/
def seedOf (style : Option Style) : String :=
  match style with
  | none => "session"
  | some s =>
    match s.seed with
    | none => "session"
    | some q => if q == "" then "session" else q

/-- `const drift = Math.max(0, Math.min(0.35, Number(style?.drift || 0)))`
(`mkRat 7 20` is the literal `0.35`). -/
def driftNum (style : Option Style) : JSNum :=
  let v : JSNum := match style with | none => .undef | some s => s.drift
  let v0 := jsOr0 v
  let n : JSNum := match v0 with | .undef => .nan | x => x
  jsMax (.fin 0) (jsMin (.fin (mkRat 7 20)) n)

/-- Fuel-bounded decimal expansion of the fraction `r / den` in `[0,1)`,
used to interpolate finite JavaScript numbers into the prompt (every value
the handler produces here terminates well inside the fuel). -/
def fracDigits : Nat → Nat → Nat → String
  | 0, _, _ => ""
  | Nat.succ fuel, r, den =>
    if r == 0 then ""
    else toString ((r * 10) / den) ++ fracDigits fuel ((r * 10) % den) den

/-- Decimal rendering of a finite JavaScript number (`${q}`): integers print
without a decimal point, other values with one (e.g. `1.5`). -/
def ratToDecimal (q : ℚ) : String :=
  let sign := if q.num < 0 then "-" else ""
  let n := q.num.natAbs
  sign ++ toString (n / q.den)
    ++ (if n % q.den == 0 then "" else "." ++ fracDigits 20 (n % q.den) q.den)

/-- String interpolation `${v}` of a raw `receptivity` value. -/
def jsShow : JSVal → String
  | .undef => "undefined"
  | .num q => ratToDecimal q
  | .nan => "NaN"
  | .inf true => "Infinity"
  | .inf false => "-Infinity"
  | .other d => d

/-- `x * 100` on a numeric value (for the drift percentage); the finite case
is computed on the numerator (`q * 100 = (100 num) / den`). -/
def jsNumScale100 : JSNum → JSNum
  | .fin q => .fin (mkRat (q.num * 100) q.den)
  | .undef => .nan
  | x => x

/-- Round `q` to the nearest integer, halves up: `⌊q + 1/2⌋` computed on the
numerator and denominator (`q + 1/2 = (2 num + den) / (2 den)`). -/
def jsRound (q : ℚ) : ℤ :=
  Int.fdiv (2 * q.num + (q.den : ℤ)) (2 * (q.den : ℤ))

/-- `x.toFixed(0)`: round to the nearest integer (the handler only reaches
this with values in `[0,35]`, where JavaScript's rounding agrees). -/
def jsNumToFixed0 : JSNum → String
  | .fin q => toString (jsRound q)
  | .nan => "NaN"
  | .undef => "NaN"
  | .inf true => "Infinity"
  | .inf false => "-Infinity"

/-- Interpolation `${e}` of an expression that may be `undefined`
(`receptivityTuning` can return `undefined`, which a template literal
renders as the text `undefined`). -/
def optShow : Option String → String
  | none => "undefined"
  | some s => s

/-- JavaScript `String.prototype.trim()`: strip whitespace from both ends
(modelled at the character level). -/
def jsTrim (s : String) : String :=
  String.mk (((s.data.dropWhile Char.isWhitespace).reverse.dropWhile
      Char.isWhitespace).reverse)

/-- `scenario: { name, company, persona }`; absent string fields are
modelled as `""` (both are falsy in the validation checks). -/
structure Scenario where
  name : String
  company : String
  persona : String
deriving DecidableEq, Repr

/-- The `systemPrompt` template literal of `src/server.js` (lines 276–303),
assembled from the persona directive, the receptivity tuning line, the style
flavor, the diversity block over the sanitized messages, the fixed Eskola
alignment text and the fixed FORMAT text, then `.trim()`ed. -/
def systemPromptFull (scen : Scenario) (receptivity : JSVal) (style : Option Style)
    (sanitized : List SendMsg) : String :=
  jsTrim ("\nYou are roleplaying as " ++ scen.name ++ " from " ++ scen.company
   ++ ".\nPersona rules:\n"
   ++ jsPropShow ((basePersonaOpt scen.persona).getD (.own basePersonaCold))
   ++ "\n\nReceptivity tuning (0..3 = guarded→warm; current=" ++ jsShow receptivity
   ++ "):\n"
   ++ optShow (receptivityTuning scen.persona receptivity)
   ++ "\n\nSession flavor (keep subtle & consistent):\n- Seed: " ++ seedOf style
   ++ "\n- Quirk: " ++ quirkOf style
   ++ "\n- Topic drift budget: up to " ++ jsNumToFixed0 (jsNumScale100 (driftNum style))
   ++ "% of turns may include a tiny aside if rapport allows; remain professional."
   ++ "\n\nDiversity & realism:\n- Vary sentence length, tone, and cadence. Use natural contractions and hedges."
   ++ "\n- Never reuse exact phrasings from your prior turns in this chat. Avoid verbatim from: "
   ++ antiRepeatList sanitized 1200
   ++ "\n- Don’t sound templated. If you refuse or deflect, vary how you do it."
   ++ "\n\nEskola alignment:\n- Evaluate the rep with H.E.L.P.: Hello (permission), Educate (smart qualification—asset profile, decision process, timelines, budget), Leverage (value: safety, warranty compliance, SHIELD biannual inspections & documentation, response time, lifecycle cost), Prove (clear next step: site walk, SHIELD inspection, brief scheduling call)."
   ++ "\n- Tie “Leverage” to business impact. Accept small next steps when appropriate."
   ++ "\n\nFORMAT:\n1) First, ONLY your customer reply (1–3 sentences; for cold prospects, usually 1 sentence)."
   ++ "\n2) New line: \"Coach: ...\" — 1–2 sentences:\n   • Did they follow H/E/L/P?\n   • What single next move should they try (permission line, one qualifying question, a value angle, or a concrete next step)?\n")

/-- The outbound message list of the upstream call:
`[{ role: "system", content: systemPrompt }, ...sanitizedMessages]`. -/
def outboundMessages (scen : Scenario) (receptivity : JSVal) (style : Option Style)
    (messages : List Msg) : List SendMsg :=
  ⟨"system", systemPromptFull scen receptivity style (sanitizedMessages messages)⟩
    :: sanitizedMessages messages

/-- A decoded `POST /chat` body. `messages = none` models a body whose
`messages` is absent or not an array (`!Array.isArray(messages)`);
`scenario = none` models an absent `scenario` (so `scenario?.name` is falsy). -/
structure ChatRequest where
  messages : Option (List Msg)
  scenario : Option Scenario
  receptivity : JSVal
  style : Option Style

/-- Truthiness of the `OPENAI_API_KEY` environment value: unset (`none`)
or the empty string are falsy. -/
def envTruthy : Option String → Bool
  | none => false
  | some s => s != ""

/-- `scenario?.name` with falsiness folded to `""`. -/
def scenarioName (r : ChatRequest) : String :=
  match r.scenario with | none => "" | some s => s.name

/-- `scenario?.company` with falsiness folded to `""`. -/
def scenarioCompany (r : ChatRequest) : String :=
  match r.scenario with | none => "" | some s => s.company

/-- `scenario?.persona` with falsiness folded to `""`. -/
def scenarioPersona (r : ChatRequest) : String :=
  match r.scenario with | none => "" | some s => s.persona

/-- `Array.isArray(messages) && scenario?.name && scenario?.company && scenario?.persona`. -/
def validPayload (r : ChatRequest) : Bool :=
  r.messages.isSome && scenarioName r != "" && scenarioCompany r != ""
    && scenarioPersona r != ""

/-- The fixed 500 body for a missing credential. -/
def MISSING_KEY_MSG : String := "Missing OPENAI_API_KEY on the server."

/-- The fixed 400 body for an invalid payload. -/
def INVALID_PAYLOAD_MSG : String :=
  "Invalid payload. Expected \x7b messages: [], scenario: \x7b name, company, persona \x7d, receptivity, style \x7d"

/-- A JSON response body sent back to the caller: a bare `{ error }` object,
an `{ error, details }` object, or the upstream payload passed through. -/
inductive RespBody (α : Type) where
  | errMsg (error : String)
  | errDetails (error : String) (details : α)
  | payload (data : α)
deriving DecidableEq

/-- An HTTP response: status code and JSON body. -/
structure HttpResp (α : Type) where
  status : Nat
  body : RespBody α

/-- The `POST /chat` handler's decision sequence from `src/server.js`
(lines 237–331): credential check first, then payload validation, then the
upstream call (modelled by its observed status flag and decoded JSON body),
whose failure is surfaced as a 500 with the body under `details` and whose
success is passed through. -/
def chatHandler {α : Type} (apiKey : Option String) (req : ChatRequest)
    (upstreamOk : Bool) (upstreamBody : α) : HttpResp α :=
  if !(envTruthy apiKey) then ⟨500, .errMsg MISSING_KEY_MSG⟩
  else if !(validPayload req) then ⟨400, .errMsg INVALID_PAYLOAD_MSG⟩
  else if !upstreamOk then ⟨500, .errDetails "OpenAI API error" upstreamBody⟩
  else ⟨200, .payload upstreamBody⟩

/-- A character the JavaScript regex `.` matches: anything but a line
terminator (LF, CR, U+2028, U+2029). -/
def okChar (c : Char) : Bool :=
  c != '\n' && c != '\r' && c != '\u2028' && c != '\u2029'

/-- The `.*` loop of the wildcard regex: try the rest of the pattern
(`test`) at the current position, or consume one admissible character and
continue. -/
def starLoop (test : List Char → Bool) : List Char → Bool
  | [] => test []
  | c :: cs => test (c :: cs) || (okChar c && starLoop test cs)

/-- Matching of an allowlist pattern against an origin, both as character
lists: the pattern built by
`"^" + o.replace(/\./g, "\\.").replace(/\*/g, ".*") + "$"` treats every
non-`*` character literally (dots are escaped) and each `*` as `.*`, anchored
at both ends; `.*` consumes any run of non-line-terminator characters. -/
def pmatch : List Char → List Char → Bool
  | [], s => s.isEmpty
  | p :: ps, s =>
    if p = '*' then starLoop (pmatch ps) s
    else
      match s with
      | [] => false
      | c :: cs => p == c && pmatch ps cs

/-- One allowlist entry against an origin: exact string equality, else, when
the entry holds a `*` (`o.includes("*")`, checked on the character data),
the anchored wildcard regex. -/
def entryAllows (o origin : String) : Bool :=
  if o == origin then true
  else if o.data.contains '*' then pmatch o.data origin.data
  else false

/-- `PROD_ALLOWED_ORIGINS`. -/
def PROD_ALLOWED_ORIGINS : List String :=
  ["https://static1.squarespace.com",
   "https://*.squarespace.com",
   "https://*.squarespace-cdn.com",
   "https://eskola.com",
   "https://www.eskola.com"]

/-- `DEV_ALLOWED`, present exactly when `ALLOW_LOCAL_FILE` is enabled. -/
def DEV_ALLOWED (allowLocalFile : Bool) : List String :=
  if allowLocalFile then
    ["null", "http://localhost:3000", "http://127.0.0.1:5500", "http://localhost:5500"]
  else []

/-- `ALLOWED_ORIGINS = [...PROD_ALLOWED_ORIGINS, ...DEV_ALLOWED]`. -/
def allowedOrigins (allowLocalFile : Bool) : List String :=
  PROD_ALLOWED_ORIGINS ++ DEV_ALLOWED allowLocalFile

/-- The CORS origin callback: `if (!origin) return cb(null, true)` — a
request with no `Origin` header, and likewise an empty-string origin (both
falsy), is allowed; otherwise the origin is allowed iff some allowlist entry
admits it. -/
def originGate (allowLocalFile : Bool) : Option String → Bool
  | none => true
  | some origin =>
    if origin == "" then true
    else (allowedOrigins allowLocalFile).any fun o => entryAllows o origin

/-- Naive substring test on character lists (used to exhibit text embedded in
an assembled prompt). -/
def containsSub (needle : List Char) : List Char → Bool
  | [] => needle.isEmpty
  | c :: t => needle.isPrefixOf (c :: t) || containsSub needle t

/-- The diversity hint exactly as the claim words it: the assistant contents,
most recent 6 first, joined with the separator and tail-truncated to 1200
characters, with the placeholder substituted only `when no assistant turns
exist`. Stated from the claim, to be compared with `antiRepeatList`. -/
def diversityHintClaim (ms : List SendMsg) : String :=
  let asst := ms.filter fun m => m.role == "assistant"
  if asst.isEmpty then "(none)"
  else
    let t := String.intercalate " • " (((asst.reverse).take 6).map fun m => m.content)
    if t.length > 1200 then t.drop (t.length - 1200) else t

/-- The diversity hint as the amended claim words it: as above, except the
placeholder is substituted whenever the (possibly truncated) joined text is
empty — which covers the no-assistant-turns case and also assistant turns
whose kept contents join to the empty string. -/
def diversityHintAmended (ms : List SendMsg) : String :=
  let recent := ((ms.filter fun m => m.role == "assistant").reverse).take 6
  let t := String.intercalate " • " (recent.map fun m => m.content)
  let t2 := if t.length > 1200 then t.drop (t.length - 1200) else t
  if t2 == "" then "(none)" else t2

section Helpers

/-- Two strings with the same character data are equal. -/
theorem string_data_inj {s t : String} (h : s.data = t.data) : s = t := by
  cases s; cases t; simp_all

/-- Sanitizing is unaffected by first deleting the messages of a role the
forwardable-role set does not contain. -/
theorem sanitized_filter_coach (ms : List Msg) :
    sanitizedMessages (ms.filter fun m => m.role != "coach") = sanitizedMessages ms := by
  unfold sanitizedMessages
  rw [List.filter_filter]
  congr 1
  apply List.filter_congr
  intro m _
  cases hc : OPENAI_ROLES.contains m.role
  · simp [hc]
  · have hm : m.role ∈ OPENAI_ROLES := List.elem_iff.mp hc
    simp only [OPENAI_ROLES, List.mem_cons, List.not_mem_nil, or_false] at hm
    rcases hm with h | h | h <;> rw [h] <;> decide

/-- Unfolding: a leading `*` against the empty string. -/
theorem pmatch_star_nil (ps : List Char) : pmatch ('*' :: ps) [] = pmatch ps [] := rfl

/-- Unfolding: a leading `*` against a non-empty string either matches zero
characters or consumes one admissible character. -/
theorem pmatch_star_cons (ps : List Char) (c : Char) (cs : List Char) :
    pmatch ('*' :: ps) (c :: cs)
      = (pmatch ps (c :: cs) || (okChar c && pmatch ('*' :: ps) cs)) := rfl

/-- Unfolding: a leading literal against the empty string fails. -/
theorem pmatch_lit_nil (a : Char) (ps : List Char) (ha : a ≠ '*') :
    pmatch (a :: ps) [] = false := by
  simp [pmatch, ha]

/-- Unfolding: a leading literal consumes one equal character. -/
theorem pmatch_lit_cons (a : Char) (ps : List Char) (c : Char) (cs : List Char)
    (ha : a ≠ '*') :
    pmatch (a :: ps) (c :: cs) = (a == c && pmatch ps cs) := by
  simp [pmatch, ha]

/-- A star-free pattern matches exactly itself. -/
theorem pmatch_literal_iff : ∀ (p : List Char), '*' ∉ p →
    ∀ s, pmatch p s = true ↔ s = p := by
  intro p
  induction p with
  | nil =>
    intro _ s
    cases s <;> simp [pmatch]
  | cons a ps ih =>
    intro hp s
    have ha : a ≠ '*' := fun h => hp (h ▸ List.mem_cons_self a ps)
    have hps : '*' ∉ ps := fun h => hp (List.mem_cons_of_mem a h)
    cases s with
    | nil => simp [pmatch_lit_nil a ps ha]
    | cons c cs =>
      rw [pmatch_lit_cons a ps c cs ha, Bool.and_eq_true, beq_iff_eq, ih hps cs]
      constructor
      · rintro ⟨rfl, rfl⟩; rfl
      · rintro h; injection h with h1 h2; exact ⟨h1.symm, h2⟩

/-- A leading `*` matches a string iff it splits into an admissible run and a
remainder matched by the rest of the pattern. -/
theorem pmatch_star_iff (ps : List Char) : ∀ s : List Char,
    pmatch ('*' :: ps) s = true ↔
      ∃ s1 s2, s = s1 ++ s2 ∧ (∀ c ∈ s1, okChar c = true) ∧ pmatch ps s2 = true := by
  intro s
  induction s with
  | nil =>
    rw [pmatch_star_nil]
    constructor
    · intro h; exact ⟨[], [], rfl, by simp, h⟩
    · rintro ⟨s1, s2, heq, _, h⟩
      obtain ⟨rfl, rfl⟩ := List.append_eq_nil.mp heq.symm
      exact h
  | cons c cs ih =>
    rw [pmatch_star_cons, Bool.or_eq_true, Bool.and_eq_true]
    constructor
    · rintro (h | ⟨hok, hrec⟩)
      · exact ⟨[], c :: cs, rfl, by simp, h⟩
      · obtain ⟨s1, s2, heq, hall, hm⟩ := ih.mp hrec
        refine ⟨c :: s1, s2, by rw [heq]; rfl, ?_, hm⟩
        intro d hd
        rcases List.mem_cons.mp hd with rfl | hd
        · exact hok
        · exact hall d hd
    · rintro ⟨s1, s2, heq, hall, hm⟩
      cases s1 with
      | nil =>
        left
        simp only [List.nil_append] at heq
        exact heq ▸ hm
      | cons d s1' =>
        injection heq with h1 h2
        subst h1
        right
        refine ⟨hall c (List.mem_cons_self c s1'), ?_⟩
        exact ih.mpr ⟨s1', s2, h2, fun d hd => hall d (List.mem_cons_of_mem c hd), hm⟩

/-- A star-free prefix of a pattern must be consumed literally. -/
theorem pmatch_prefix_iff : ∀ (pre : List Char), '*' ∉ pre → ∀ (rest s : List Char),
    pmatch (pre ++ rest) s = true ↔ ∃ s2, s = pre ++ s2 ∧ pmatch rest s2 = true := by
  intro pre
  induction pre with
  | nil =>
    intro _ rest s
    simp
  | cons a pre' ih =>
    intro hp rest s
    have ha : a ≠ '*' := fun h => hp (h ▸ List.mem_cons_self a pre')
    have hp' : '*' ∉ pre' := fun h => hp (List.mem_cons_of_mem a h)
    cases s with
    | nil =>
      rw [List.cons_append, pmatch_lit_nil _ _ ha]
      simp
    | cons c cs =>
      rw [List.cons_append, pmatch_lit_cons _ _ _ _ ha, Bool.and_eq_true, beq_iff_eq,
        ih hp' rest cs]
      constructor
      · rintro ⟨rfl, s2, rfl, hm⟩
        exact ⟨s2, rfl, hm⟩
      · rintro ⟨s2, heq, hm⟩
        injection heq with h1 h2
        exact ⟨h1.symm, s2, h2, hm⟩

/-- A single-star pattern `pre*suf` (star-free `pre`, `suf`) matches exactly
the strings `pre ++ mid ++ suf` for an admissible middle. -/
theorem wildcard_split_iff (preS sufS : String) (hpre : '*' ∉ preS.data)
    (hsuf : '*' ∉ sufS.data) (origin : String) :
    pmatch (preS.data ++ '*' :: sufS.data) origin.data = true ↔
      ∃ mid : String, (∀ c ∈ mid.data, okChar c = true)
        ∧ origin = preS ++ mid ++ sufS := by
  rw [pmatch_prefix_iff preS.data hpre]
  constructor
  · rintro ⟨s2, heq, hm⟩
    rw [pmatch_star_iff] at hm
    obtain ⟨s1, s3, rfl, hall, hlit⟩ := hm
    rw [pmatch_literal_iff _ hsuf] at hlit
    subst hlit
    refine ⟨String.mk s1, hall, ?_⟩
    apply string_data_inj
    rw [String.data_append, String.data_append, heq]
    simp [List.append_assoc]
  · rintro ⟨mid, hall, rfl⟩
    refine ⟨mid.data ++ sufS.data, ?_, ?_⟩
    · rw [String.data_append, String.data_append]
      simp [List.append_assoc]
    · rw [pmatch_star_iff]
      exact ⟨mid.data, sufS.data, rfl, hall, (pmatch_literal_iff _ hsuf _).mpr rfl⟩

/-- A star-free allowlist entry admits exactly itself. -/
theorem entryAllows_no_star (e origin : String) (h : e.data.contains '*' = false) :
    entryAllows e origin = (e == origin) := by
  unfold entryAllows
  simp only [h]
  cases heq : (e == origin) <;> simp [heq]

/-- An entry holding a `*` admits via exact equality or the wildcard regex. -/
theorem entryAllows_star (e origin : String) (h : e.data.contains '*' = true) :
    entryAllows e origin = (e == origin || pmatch e.data origin.data) := by
  unfold entryAllows
  simp only [h]
  cases heq : (e == origin) <;> simp [heq]

/-- The `https://*.squarespace.com` pattern matches exactly the origins
`https://<mid>.squarespace.com`. -/
theorem squarespace_wild_iff (origin : String) :
    pmatch ("https://*.squarespace.com").data origin.data = true ↔
      ∃ mid : String, (∀ c ∈ mid.data, okChar c = true)
        ∧ origin = "https://" ++ mid ++ ".squarespace.com" := by
  have h : ("https://*.squarespace.com").data
      = ("https://").data ++ '*' :: (".squarespace.com").data := by decide
  rw [h, wildcard_split_iff "https://" ".squarespace.com" (by decide) (by decide)]

/-- The `https://*.squarespace-cdn.com` pattern matches exactly the origins
`https://<mid>.squarespace-cdn.com`. -/
theorem squarespace_cdn_wild_iff (origin : String) :
    pmatch ("https://*.squarespace-cdn.com").data origin.data = true ↔
      ∃ mid : String, (∀ c ∈ mid.data, okChar c = true)
        ∧ origin = "https://" ++ mid ++ ".squarespace-cdn.com" := by
  have h : ("https://*.squarespace-cdn.com").data
      = ("https://").data ++ '*' :: (".squarespace-cdn.com").data := by decide
  rw [h, wildcard_split_iff "https://" ".squarespace-cdn.com" (by decide) (by decide)]

end Helpers

/-- C1: the code substitutes `"(none)"` for every empty joined text, not only
when no assistant turns exist: a history with a single assistant turn whose
content is empty joins to `""`, where the claim's description yields `""` but
`antiRepeatList` yields `"(none)"`. -/
theorem c1_counterexample :
    antiRepeatList [⟨"assistant", ""⟩] 1200 ≠ diversityHintClaim [⟨"assistant", ""⟩] := by
  decide

/-- C1 (amended): for every message sequence, the diversity hint is the
contents of the entries whose role is `"assistant"`, most recent 6 in
reverse-chronological order, joined with `" • "` and truncated to the last
1200 characters when longer; and whenever that text is empty — in particular
when no assistant turns exist — the hint is the placeholder `"(none)"`. -/
theorem c1_diversity_hint (ms : List SendMsg) :
    antiRepeatList ms 1200 = diversityHintAmended ms := by
  simp only [antiRepeatList, diversityHintAmended, List.filter_reverse]

/-- C2: sanitization keeps exactly the entries whose role is in
{system, assistant, user}, projects them to the two fields role/content
(extras discarded), preserves their order (a sublist of the projected input),
never lets a `"coach"` entry reach the upstream message list, and the
diversity hint is computed from the sanitized list, so deleting `"coach"`
entries from the input leaves the hint unchanged. -/
theorem c2_sanitizer_spec (ms : List Msg) :
    (∀ m' ∈ sanitizedMessages ms, m'.role ∈ OPENAI_ROLES) ∧
    (∀ m' : SendMsg, m' ∈ sanitizedMessages ms ↔
      ∃ m ∈ ms, OPENAI_ROLES.contains m.role = true ∧ m' = projectMsg m) ∧
    List.Sublist (sanitizedMessages ms) (ms.map projectMsg) ∧
    (∀ scen r st, ∀ m' ∈ outboundMessages scen r st ms, m'.role ≠ "coach") ∧
    diversityBlockOf ms = antiRepeatList (sanitizedMessages ms) 1200 ∧
    antiRepeatList (sanitizedMessages (ms.filter fun m => m.role != "coach")) 1200
      = antiRepeatList (sanitizedMessages ms) 1200 := by
  have hmem : ∀ m' : SendMsg, m' ∈ sanitizedMessages ms ↔
      ∃ m ∈ ms, OPENAI_ROLES.contains m.role = true ∧ m' = projectMsg m := by
    intro m'
    simp only [sanitizedMessages, List.mem_map, List.mem_filter]
    constructor
    · rintro ⟨m, ⟨hm, hc⟩, rfl⟩
      exact ⟨m, hm, hc, rfl⟩
    · rintro ⟨m, hm, hc, rfl⟩
      exact ⟨m, ⟨hm, hc⟩, rfl⟩
  have hrole : ∀ m' ∈ sanitizedMessages ms, m'.role ∈ OPENAI_ROLES := by
    intro m' hm'
    obtain ⟨m, _, hc, rfl⟩ := (hmem m').mp hm'
    exact List.elem_iff.mp hc
  refine ⟨hrole, hmem, ?_, ?_, rfl, ?_⟩
  · exact List.Sublist.map projectMsg (List.filter_sublist ms)
  · intro scen r st m' hm'
    rcases List.mem_cons.mp hm' with h | h
    · subst h; show ("system" : String) ≠ "coach"; decide
    · have := hrole m' h
      simp only [OPENAI_ROLES, List.mem_cons, List.not_mem_nil, or_false] at this
      rcases this with h | h | h <;> rw [h] <;> decide
  · rw [sanitized_filter_coach]

/-- C2 witness: a `"coach"` entry is dropped while a `"user"` entry is kept,
projected to role/content only. -/
theorem c2_sanitizer_spec_witness :
    (⟨"user", "hi"⟩ : SendMsg) ∈
      sanitizedMessages [⟨"coach", "tip", []⟩, ⟨"user", "hi", [("ui", "x")]⟩] :=
  ((c2_sanitizer_spec [⟨"coach", "tip", []⟩, ⟨"user", "hi", [("ui", "x")]⟩]).2.1
      ⟨"user", "hi"⟩).mpr
    ⟨⟨"user", "hi", [("ui", "x")]⟩, by decide, by decide, rfl⟩

/-- C3: the receptivity dial used to index the tone table is
`Math.max(0, Math.min(3, Number(dial) || 0))`: always a finite value in
`[0,3]`; `-1` clamps to `0`, `7` clamps to `3`, and an absent, `NaN` or
non-numeric dial becomes `0`; consequently the tuning lookup at `-1`, `7`
and absent behaves as at `0`, `3` and `0` respectively, for every persona. -/
theorem c3_receptivity_clamped :
    (∀ v : JSVal, ∃ q : ℚ, clampDial v = .fin q ∧ 0 ≤ q ∧ q ≤ 3) ∧
    clampDial (.num (-1)) = .fin 0 ∧
    clampDial (.num 7) = .fin 3 ∧
    clampDial .undef = .fin 0 ∧
    clampDial .nan = .fin 0 ∧
    (∀ s, clampDial (.other s) = .fin 0) ∧
    (∀ p, receptivityTuning p (.num (-1)) = receptivityTuning p (.num 0)
      ∧ receptivityTuning p (.num 7) = receptivityTuning p (.num 3)
      ∧ receptivityTuning p .undef = receptivityTuning p (.num 0)) := by
  have hval : ∀ v : JSVal, ∃ q : ℚ, clampDial v = .fin q ∧ 0 ≤ q ∧ q ≤ 3 := by
    intro v
    cases v with
    | num q =>
      by_cases hq : q = 0
      · subst hq; exact ⟨0, by decide, le_refl 0, by norm_num⟩
      · refine ⟨max 0 (min 3 q), ?_, le_max_left 0 _, max_le (by norm_num) (min_le_left 3 q)⟩
        simp [clampDial, toNumber, jsOr0, jsNumTruthy, hq, jsMin, jsMax]
    | inf pos =>
      cases pos
      · exact ⟨0, by decide, le_refl 0, by norm_num⟩
      · exact ⟨3, by decide, by norm_num, le_refl 3⟩
    | undef => exact ⟨0, by decide, le_refl 0, by norm_num⟩
    | nan => exact ⟨0, by decide, le_refl 0, by norm_num⟩
    | other s => exact ⟨0, by simp [clampDial, toNumber, jsOr0, jsNumTruthy, jsMin, jsMax], le_refl 0, by norm_num⟩
  refine ⟨hval, by decide, by decide, by decide, by decide,
    fun s => by simp [clampDial, toNumber, jsOr0, jsNumTruthy, jsMin, jsMax], fun p => ?_⟩
  refine ⟨?_, ?_, ?_⟩ <;>
    simp [receptivityTuning,
      show clampDial (.num (-1)) = .fin 0 from by decide,
      show clampDial (.num 0) = .fin 0 from by decide,
      show clampDial (.num 7) = .fin 3 from by decide,
      show clampDial (.num 3) = .fin 3 from by decide,
      show clampDial .undef = .fin 0 from by decide]

/-- C4 counterexample: the persona `"toString"` is a non-empty string not
among {cold_prospect, qualified_lead, existing_customer}, yet
`basePersona["toString"]` and `map["toString"]` find the truthy
`Object.prototype.toString` through the prototype chain, so the
`|| cold_prospect` fallbacks do not fire: the receptivity lookup yields no
directive instead of the cold_prospect tone, and the assembled prompt
differs from the cold_prospect prompt. -/
theorem c4_prototype_counterexample :
    ("toString" : String) ≠ "" ∧
    ("toString" : String) ∉
      (["cold_prospect", "qualified_lead", "existing_customer"] : List String) ∧
    basePersonaOpt "toString" = some (.inheritedMember "toString") ∧
    toneTableOpt "toString" = some (.inheritedMember "toString") ∧
    receptivityTuning "toString" (.num 0) = none ∧
    receptivityTuning "toString" (.num 0) ≠ receptivityTuning "cold_prospect" (.num 0) ∧
    systemPromptFull ⟨"Jordan", "Acme", "toString"⟩ (.num 0) none []
      ≠ systemPromptFull ⟨"Jordan", "Acme", "cold_prospect"⟩ (.num 0) none [] := by
  refine ⟨by decide, by decide, by decide, by decide, by decide, by decide, by decide⟩

/-- C4 (amended): a non-empty persona outside {cold_prospect,
qualified_lead, existing_customer} that is not the name of an
`Object.prototype` member (toString, constructor, __proto__, ...) passes
validation, and prompt assembly falls back to the `cold_prospect` directive
and tone table: both property lookups miss, the `||` fallbacks fire, the
assembled prompt is the one a `cold_prospect` scenario would get, and the
handler never answers 400 for it (nothing throws). -/
theorem c4_unknown_persona_fallback
    (n c p : String) (r : JSVal) (st : Option Style) (sm : List SendMsg)
    (msgs : List Msg) (key : Option String) (ok : Bool) (body : String)
    (hp0 : p ≠ "") (h1 : p ≠ "cold_prospect") (h2 : p ≠ "qualified_lead")
    (h3 : p ≠ "existing_customer") (hproto : p ∉ objectPrototypeKeys)
    (hn : n ≠ "") (hc : c ≠ "") (hkey : envTruthy key = true) :
    basePersonaOpt p = none ∧ toneTableOpt p = none ∧
    systemPromptFull ⟨n, c, p⟩ r st sm = systemPromptFull ⟨n, c, "cold_prospect"⟩ r st sm ∧
    validPayload ⟨some msgs, some ⟨n, c, p⟩, r, st⟩ = true ∧
    (chatHandler key ⟨some msgs, some ⟨n, c, p⟩, r, st⟩ ok body).status ≠ 400 := by
  have hpc : objectPrototypeKeys.contains p = false := by
    cases hx : objectPrototypeKeys.contains p
    · rfl
    · exact absurd (List.elem_iff.mp hx) hproto
  have hbp : basePersonaOpt p = none := by
    simp [basePersonaOpt, objLookup, basePersonaOwn, h1, h2, h3, hpc, hproto]
  have htt : toneTableOpt p = none := by
    simp [toneTableOpt, objLookup, toneTableOwn, h1, h2, h3, hpc, hproto]
  have hvalid : validPayload ⟨some msgs, some ⟨n, c, p⟩, r, st⟩ = true := by
    simp [validPayload, scenarioName, scenarioCompany, scenarioPersona, hn, hc, hp0]
  refine ⟨hbp, htt, ?_, hvalid, ?_⟩
  · simp only [systemPromptFull, receptivityTuning, hbp, htt,
      show basePersonaOpt "cold_prospect" = some (.own basePersonaCold) from rfl,
      show toneTableOpt "cold_prospect" = some (.own coldTones) from rfl,
      Option.getD_none, Option.getD_some]
  · cases ok <;> simp [chatHandler, hkey, hvalid]

/-- C4 witness at persona `"roofer"`. -/
theorem c4_unknown_persona_fallback_witness :
    systemPromptFull ⟨"Jordan", "Acme", "roofer"⟩ .undef none []
      = systemPromptFull ⟨"Jordan", "Acme", "cold_prospect"⟩ .undef none [] ∧
    validPayload ⟨some [], some ⟨"Jordan", "Acme", "roofer"⟩, .undef, none⟩ = true :=
  ⟨(c4_unknown_persona_fallback "Jordan" "Acme" "roofer" .undef none [] []
      (some "sk") true "" (by decide) (by decide) (by decide) (by decide)
      (by decide) (by decide) (by decide) (by decide)).2.2.1,
   (c4_unknown_persona_fallback "Jordan" "Acme" "roofer" .undef none [] []
      (some "sk") true "" (by decide) (by decide) (by decide) (by decide)
      (by decide) (by decide) (by decide) (by decide)).2.2.2.1⟩

/-- C5: with the upstream credential unset (or empty) the handler answers
500 with the fixed missing-key body no matter what the payload looks like —
the credential check runs before validation; with a credential present, a
non-array `messages` or a missing `scenario.name`/`scenario.company` is
answered 400 with the fixed shape-describing body; an empty `messages` array
with a complete scenario passes validation. -/
theorem c5_credential_then_validation (key : Option String) (req : ChatRequest)
    (ok : Bool) (body : String) :
    (envTruthy key = false →
      chatHandler key req ok body = ⟨500, .errMsg MISSING_KEY_MSG⟩) ∧
    (envTruthy key = true →
      (req.messages = none ∨ scenarioName req = "" ∨ scenarioCompany req = "") →
      chatHandler key req ok body = ⟨400, .errMsg INVALID_PAYLOAD_MSG⟩) ∧
    validPayload ⟨some [], some ⟨"Dana", "Eskola", "cold_prospect"⟩, .undef, none⟩ = true := by
  refine ⟨fun hk => by simp [chatHandler, hk], fun hk hbad => ?_, by decide⟩
  have hv : validPayload req = false := by
    rcases hbad with h | h | h <;> simp [validPayload, h]
  simp [chatHandler, hk, hv]

/-- C5 witness: missing key beats an invalid payload; with a key, a missing
company is a 400. -/
theorem c5_credential_then_validation_witness :
    chatHandler none ⟨none, none, .undef, none⟩ true "up" = ⟨500, .errMsg MISSING_KEY_MSG⟩ ∧
    chatHandler (some "sk") ⟨some [], some ⟨"Dana", "", "cold_prospect"⟩, .undef, none⟩ true "up"
      = ⟨400, .errMsg INVALID_PAYLOAD_MSG⟩ :=
  ⟨(c5_credential_then_validation none ⟨none, none, .undef, none⟩ true "up").1 (by decide),
   (c5_credential_then_validation (some "sk")
      ⟨some [], some ⟨"Dana", "", "cold_prospect"⟩, .undef, none⟩ true "up").2.1
     (by decide) (Or.inr (Or.inr rfl))⟩

/-- C7: prompt assembly is a pure function of scenario, receptivity, style
and (raw) message history: two calls with identical inputs produce the same
string, byte for byte. -/
theorem c7_prompt_deterministic
    (s₁ s₂ : Scenario) (r₁ r₂ : JSVal) (st₁ st₂ : Option Style)
    (m₁ m₂ : List Msg)
    (hs : s₁ = s₂) (hr : r₁ = r₂) (hst : st₁ = st₂) (hm : m₁ = m₂) :
    systemPromptFull s₁ r₁ st₁ (sanitizedMessages m₁)
      = systemPromptFull s₂ r₂ st₂ (sanitizedMessages m₂) := by
  subst hs; subst hr; subst hst; subst hm; rfl

/-- C7 witness at a concrete request. -/
theorem c7_prompt_deterministic_witness :
    systemPromptFull ⟨"Dana", "Eskola", "qualified_lead"⟩ (.num 2)
        (some ⟨some "dry wit", some "s1", .fin (1 / 10)⟩)
        (sanitizedMessages [⟨"assistant", "Hello.", []⟩])
      = systemPromptFull ⟨"Dana", "Eskola", "qualified_lead"⟩ (.num 2)
        (some ⟨some "dry wit", some "s1", .fin (1 / 10)⟩)
        (sanitizedMessages [⟨"assistant", "Hello.", []⟩]) :=
  c7_prompt_deterministic _ _ _ _ _ _ _ _ rfl rfl rfl rfl

/-- C8: a non-success upstream status is surfaced to the caller as HTTP 500
with body `{ error: "OpenAI API error", details: <upstream body> }`, the
upstream body passed through unmodified under `details`. -/
theorem c8_upstream_error_passthrough {α : Type} (key : Option String)
    (req : ChatRequest) (body : α)
    (hkey : envTruthy key = true) (hreq : validPayload req = true) :
    chatHandler key req false body = ⟨500, .errDetails "OpenAI API error" body⟩ := by
  simp [chatHandler, hkey, hreq]

/-- C8 witness at a concrete upstream error body. -/
theorem c8_upstream_error_passthrough_witness :
    chatHandler (some "sk")
        ⟨some [], some ⟨"Dana", "Eskola", "cold_prospect"⟩, .undef, none⟩
        false "rate limited"
      = ⟨500, .errDetails "OpenAI API error" "rate limited"⟩ :=
  c8_upstream_error_passthrough (some "sk")
    ⟨some [], some ⟨"Dana", "Eskola", "cold_prospect"⟩, .undef, none⟩
    "rate limited" (by decide) (by decide)

/-- C9: the quirk defaults to "curt and to the point" when absent, the seed
defaults to "session" when absent, and the drift the prompt embeds is always
a finite value in `[0, 0.35]`, whatever float (including `NaN` and
`±Infinity`) or absence the caller supplies for `style.drift`. -/
theorem c9_style_defaults_and_drift_clamp (st : Option Style) :
    quirkOf none = "curt and to the point" ∧
    (∀ s : Style, s.quirk = none → quirkOf (some s) = "curt and to the point") ∧
    seedOf none = "session" ∧
    (∀ s : Style, s.seed = none → seedOf (some s) = "session") ∧
    (∃ q : ℚ, driftNum st = .fin q ∧ 0 ≤ q ∧ q ≤ 7 / 20) := by
  refine ⟨rfl, fun s h => by simp [quirkOf, h], rfl, fun s h => by simp [seedOf, h], ?_⟩
  have h720 : (mkRat 7 20 : ℚ) = 7 / 20 := by rw [Rat.mkRat_eq_div]; norm_num
  have hcap : ∀ x : ℚ, max 0 (min (mkRat 7 20) x) ≤ 7 / 20 :=
    fun x => max_le (by norm_num) (h720 ▸ min_le_left _ x)
  cases st with
  | none => exact ⟨max 0 (min (mkRat 7 20) 0), rfl, le_max_left 0 _, hcap 0⟩
  | some s =>
    rcases s with ⟨sq, ss, sd⟩
    cases sd with
    | undef => exact ⟨max 0 (min (mkRat 7 20) 0), rfl, le_max_left 0 _, hcap 0⟩
    | nan => exact ⟨max 0 (min (mkRat 7 20) 0), rfl, le_max_left 0 _, hcap 0⟩
    | inf pos =>
      cases pos
      · exact ⟨0, rfl, le_refl 0, by norm_num⟩
      · exact ⟨max 0 (mkRat 7 20), rfl, le_max_left 0 _,
          max_le (by norm_num) (le_of_eq h720)⟩
    | fin q =>
      by_cases hq : q = 0
      · subst hq; exact ⟨max 0 (min (mkRat 7 20) 0), rfl, le_max_left 0 _, hcap 0⟩
      · refine ⟨max 0 (min (mkRat 7 20) q), ?_, le_max_left 0 _, hcap q⟩
        simp [driftNum, jsOr0, jsNumTruthy, hq, jsMin, jsMax]

/-- C9 witness: defaults fire for an empty style, and an oversized drift
clamps into range. -/
theorem c9_style_defaults_and_drift_clamp_witness :
    quirkOf (some ⟨none, none, .fin 2⟩) = "curt and to the point" ∧
    seedOf (some ⟨none, none, .fin 2⟩) = "session" ∧
    (∃ q : ℚ, driftNum (some ⟨none, none, .fin 2⟩) = .fin q ∧ 0 ≤ q ∧ q ≤ 7 / 20) :=
  ⟨(c9_style_defaults_and_drift_clamp (some ⟨none, none, .fin 2⟩)).2.1 _ rfl,
   (c9_style_defaults_and_drift_clamp (some ⟨none, none, .fin 2⟩)).2.2.2.1 _ rfl,
   (c9_style_defaults_and_drift_clamp (some ⟨none, none, .fin 2⟩)).2.2.2.2⟩

/-- C10: a fractional receptivity such as `1.5` (`mkRat 3 2`) lies strictly
between `0` and `3`, survives the clamp unrounded, indexes the four-level
tone table at a fractional position so the lookup yields no directive
(`undefined`), and the assembled prompt embeds the text `undefined` in its
receptivity-tuning line. -/
theorem c10_fractional_receptivity :
    clampDial (.num (mkRat 3 2)) = .fin (mkRat 3 2) ∧
    (0 : ℚ) < mkRat 3 2 ∧ (mkRat 3 2 : ℚ) < 3 ∧ (mkRat 3 2 : ℚ).den ≠ 1 ∧
    receptivityTuning "cold_prospect" (.num (mkRat 3 2)) = none ∧
    optShow (receptivityTuning "cold_prospect" (.num (mkRat 3 2))) = "undefined" ∧
    containsSub "undefined".data
      (systemPromptFull ⟨"Jordan", "Acme", "cold_prospect"⟩ (.num (mkRat 3 2))
        none []).data = true := by
  refine ⟨by decide, by decide, by decide, by decide, by decide, by decide, by decide⟩

/-- C6 counterexample: the code's `if (!origin) return cb(null, true)` also
fires for the empty-string origin (falsy), so the gate allows `""` even
though `""` equals no allowlist entry and matches neither wildcard pattern —
the gate does not allow `exactly` the allowlist-equal or wildcard-matching
origins. -/
theorem c6_empty_origin_counterexample :
    originGate true (some "") = true ∧
    originGate false (some "") = true ∧
    ("" : String) ∉ allowedOrigins true ∧
    ("" : String) ∉ allowedOrigins false ∧
    (¬ ∃ mid : String, (∀ c ∈ mid.data, okChar c = true)
        ∧ ("" : String) = "https://" ++ mid ++ ".squarespace.com") ∧
    (¬ ∃ mid : String, (∀ c ∈ mid.data, okChar c = true)
        ∧ ("" : String) = "https://" ++ mid ++ ".squarespace-cdn.com") := by
  refine ⟨by decide, by decide, by decide, by decide, ?_, ?_⟩
  · rintro ⟨mid, _, h⟩
    have hl := congrArg String.length h
    rw [String.length_append, String.length_append,
      show ("" : String).length = 0 from rfl,
      show ("https://" : String).length = 8 from rfl,
      show (".squarespace.com" : String).length = 16 from rfl] at hl
    omega
  · rintro ⟨mid, _, h⟩
    have hl := congrArg String.length h
    rw [String.length_append, String.length_append,
      show ("" : String).length = 0 from rfl,
      show ("https://" : String).length = 8 from rfl,
      show (".squarespace-cdn.com" : String).length = 20 from rfl] at hl
    omega

/-- C6 (amended): the origin gate allows a request with no origin, and
likewise the empty-string origin (both falsy under the code's `!origin`
check); every other origin is allowed exactly when it equals an allowlist
entry or matches a wildcard entry with `*` expanded to `.*` and dots
escaped, anchored at both ends; in particular `https://sub.squarespace.com`
is allowed and `https://evilsquarespace.com` is not. -/
theorem c6_origin_gate :
    (∀ flag, originGate flag none = true) ∧
    (∀ flag, originGate flag (some "") = true) ∧
    (∀ flag origin, origin ≠ "" → (originGate flag (some origin) = true ↔
      (origin ∈ allowedOrigins flag
        ∨ (∃ mid : String, (∀ c ∈ mid.data, okChar c = true)
            ∧ origin = "https://" ++ mid ++ ".squarespace.com")
        ∨ (∃ mid : String, (∀ c ∈ mid.data, okChar c = true)
            ∧ origin = "https://" ++ mid ++ ".squarespace-cdn.com")))) ∧
    originGate true (some "https://sub.squarespace.com") = true ∧
    originGate false (some "https://sub.squarespace.com") = true ∧
    originGate true (some "https://evilsquarespace.com") = false ∧
    originGate false (some "https://evilsquarespace.com") = false := by
  refine ⟨fun flag => rfl, fun flag => by cases flag <;> decide, ?_, by decide,
    by decide, by decide, by decide⟩
  intro flag origin hne
  have hb : (origin == "") = false := beq_eq_false_iff_ne.mpr hne
  have hgate : originGate flag (some origin)
      = ((allowedOrigins flag).any fun o => entryAllows o origin) := by
    show (if origin == "" then true
      else (allowedOrigins flag).any fun o => entryAllows o origin) = _
    rw [hb]
    simp
  have e1 : (entryAllows "https://static1.squarespace.com" origin = true)
      ↔ origin = "https://static1.squarespace.com" := by
    rw [entryAllows_no_star "https://static1.squarespace.com" origin (by decide),
      beq_iff_eq, @eq_comm String "https://static1.squarespace.com" origin]
  have e2 : (entryAllows "https://*.squarespace.com" origin = true)
      ↔ (origin = "https://*.squarespace.com"
        ∨ ∃ mid : String, (∀ c ∈ mid.data, okChar c = true)
            ∧ origin = "https://" ++ mid ++ ".squarespace.com") := by
    rw [entryAllows_star "https://*.squarespace.com" origin (by decide),
      Bool.or_eq_true, beq_iff_eq, @eq_comm String "https://*.squarespace.com" origin,
      squarespace_wild_iff]
  have e3 : (entryAllows "https://*.squarespace-cdn.com" origin = true)
      ↔ (origin = "https://*.squarespace-cdn.com"
        ∨ ∃ mid : String, (∀ c ∈ mid.data, okChar c = true)
            ∧ origin = "https://" ++ mid ++ ".squarespace-cdn.com") := by
    rw [entryAllows_star "https://*.squarespace-cdn.com" origin (by decide),
      Bool.or_eq_true, beq_iff_eq, @eq_comm String "https://*.squarespace-cdn.com" origin,
      squarespace_cdn_wild_iff]
  have e4 : (entryAllows "https://eskola.com" origin = true)
      ↔ origin = "https://eskola.com" := by
    rw [entryAllows_no_star "https://eskola.com" origin (by decide), beq_iff_eq,
      @eq_comm String "https://eskola.com" origin]
  have e5 : (entryAllows "https://www.eskola.com" origin = true)
      ↔ origin = "https://www.eskola.com" := by
    rw [entryAllows_no_star "https://www.eskola.com" origin (by decide), beq_iff_eq,
      @eq_comm String "https://www.eskola.com" origin]
  have e6 : (entryAllows "null" origin = true) ↔ origin = "null" := by
    rw [entryAllows_no_star "null" origin (by decide), beq_iff_eq,
      @eq_comm String "null" origin]
  have e7 : (entryAllows "http://localhost:3000" origin = true)
      ↔ origin = "http://localhost:3000" := by
    rw [entryAllows_no_star "http://localhost:3000" origin (by decide), beq_iff_eq,
      @eq_comm String "http://localhost:3000" origin]
  have e8 : (entryAllows "http://127.0.0.1:5500" origin = true)
      ↔ origin = "http://127.0.0.1:5500" := by
    rw [entryAllows_no_star "http://127.0.0.1:5500" origin (by decide), beq_iff_eq,
      @eq_comm String "http://127.0.0.1:5500" origin]
  have e9 : (entryAllows "http://localhost:5500" origin = true)
      ↔ origin = "http://localhost:5500" := by
    rw [entryAllows_no_star "http://localhost:5500" origin (by decide), beq_iff_eq,
      @eq_comm String "http://localhost:5500" origin]
  rw [hgate]
  cases flag
  · have hlist : allowedOrigins false
        = ["https://static1.squarespace.com", "https://*.squarespace.com",
           "https://*.squarespace-cdn.com", "https://eskola.com",
           "https://www.eskola.com"] := rfl
    rw [hlist]
    simp only [List.any_cons, List.any_nil, Bool.or_false, Bool.or_eq_true,
      e1, e2, e3, e4, e5, List.mem_cons, List.not_mem_nil, or_false]
    itauto
  · have hlist : allowedOrigins true
        = ["https://static1.squarespace.com", "https://*.squarespace.com",
           "https://*.squarespace-cdn.com", "https://eskola.com",
           "https://www.eskola.com", "null", "http://localhost:3000",
           "http://127.0.0.1:5500", "http://localhost:5500"] := rfl
    rw [hlist]
    simp only [List.any_cons, List.any_nil, Bool.or_false, Bool.or_eq_true,
      e1, e2, e3, e4, e5, e6, e7, e8, e9, List.mem_cons, List.not_mem_nil, or_false]
    itauto

/-- C6 witness: the characterization applied at a concrete non-empty origin
on the exact-match side. -/
theorem c6_origin_gate_witness :
    originGate true (some "https://eskola.com") = true :=
  (c6_origin_gate.2.2.1 true "https://eskola.com" (by decide)).mpr
    (Or.inl (by decide))

end Eskola
